import Mathlib

/-!
Shallow embedding of the news-portal backend (Express + Postgres, TypeScript).
Each handler is modelled as a pure Lean function over an explicit database
state (a list of rows) and an explicit filesystem oracle; the JavaScript
string operations used by the code (regex replace, toLowerCase, substring,
path.extname, truthiness of request-body fields) are modelled on ASCII input.
-/

namespace NewsPortal

/-! ### JavaScript / Node string primitives used by the server -/

/-- Character class of the regex `[^a-zA-Z0-9]` used in the upload filename
sanitizer: ASCII letters and digits. -/
def isAsciiAlnum (c : Char) : Bool :=
  (('a' ≤ c) && (c ≤ 'z')) || (('A' ≤ c) && (c ≤ 'Z')) || (('0' ≤ c) && (c ≤ '9'))

/-- `String.prototype.toLowerCase` restricted to ASCII: maps A–Z to a–z,
leaves every other character unchanged. -/
def asciiLowerChar (c : Char) : Char :=
  if ('A' ≤ c) && (c ≤ 'Z') then Char.ofNat (c.toNat + 32) else c

/-- Lower-casing of a whole string, character by character. -/
def asciiLower (s : String) : String :=
  String.mk (s.data.map asciiLowerChar)

/-- Suffix of a character list starting at its last dot, when a dot occurs. -/
def lastDotSuffix : List Char → Option (List Char)
  | [] => none
  | c :: rest =>
    match lastDotSuffix rest with
    | some s => some s
    | none => if c == '.' then some (c :: rest) else none

/-- `path.extname` of Node on a bare filename: the substring starting at the
last dot, except that a dot in the very first position (hidden files like
`.env`) does not begin an extension. -/
def extname (s : String) : String :=
  match s.data with
  | [] => ""
  | _ :: rest =>
    match lastDotSuffix rest with
    | some suf => String.mk suf
    | none => ""

/-- Truthiness of an optional string request-body field in JavaScript:
`undefined`/`null` and the empty string are falsy. -/
def jsFalsy : Option String → Bool
  | none => true
  | some s => s.isEmpty

/-- `x || null` applied to an optional string field: a falsy value becomes
SQL NULL, anything else is kept. -/
def jsOrNull : Option String → Option String
  | none => none
  | some s => if s.isEmpty then none else some s

/-! ### Upload classifier (src/index.ts, uploads router) -/

/-- The literal MIME allow-list object `allowedFileTypes` of the uploads
router, with its four category arrays. -/
structure AllowedFileTypes where
  images : List String
  videos : List String
  documents : List String
  others : List String

def allowedFileTypes : AllowedFileTypes :=
  { images :=
      ["image/jpeg", "image/jpg", "image/png", "image/gif", "image/webp",
       "image/svg+xml", "image/bmp", "image/tiff", "image/avif"]
    videos :=
      ["video/mp4", "video/mpeg", "video/quicktime", "video/x-msvideo",
       "video/x-ms-wmv", "video/webm", "video/3gpp", "video/x-flv"]
    documents :=
      ["application/pdf", "application/msword",
       "application/vnd.openxmlformats-officedocument.wordprocessingml.document",
       "application/vnd.ms-excel",
       "application/vnd.openxmlformats-officedocument.spreadsheetml.sheet",
       "application/vnd.ms-powerpoint",
       "application/vnd.openxmlformats-officedocument.presentationml.presentation",
       "text/plain", "text/csv", "application/rtf",
       "application/vnd.oasis.opendocument.text",
       "application/vnd.oasis.opendocument.spreadsheet",
       "application/vnd.oasis.opendocument.presentation"]
    others :=
      ["application/zip", "application/x-rar-compressed",
       "application/x-7z-compressed", "application/x-tar", "application/gzip"] }

/-- `ALLOWED_MIME_TYPES`: the flattening of the four arrays, used by the
upload file filter. -/
def ALLOWED_MIME_TYPES : List String :=
  allowedFileTypes.images ++ allowedFileTypes.videos ++
  allowedFileTypes.documents ++ allowedFileTypes.others

/-- `getFileCategory`: the fixed classification of a MIME type into one of
the four category strings. -/
def getFileCategory (mimetype : String) : String :=
  if allowedFileTypes.images.contains mimetype then "image"
  else if allowedFileTypes.videos.contains mimetype then "video"
  else if allowedFileTypes.documents.contains mimetype then "document"
  else "other"

/-- `fileFilter`: accepts a file exactly when its MIME type is in the
allow-list, otherwise reports the unsupported-type error. -/
def fileFilter (mimetype : String) : Except String Unit :=
  if ALLOWED_MIME_TYPES.contains mimetype then Except.ok ()
  else Except.error ("File type not allowed: " ++ mimetype)

/-- `storage.destination`: the per-category directory chosen for an accepted
file. -/
def storageDestination (mimetype : String) : String :=
  if allowedFileTypes.images.contains mimetype then "./uploads/images"
  else if allowedFileTypes.videos.contains mimetype then "./uploads/videos"
  else if allowedFileTypes.documents.contains mimetype then "./uploads/documents"
  else "./uploads/others"

/-- The sanitized original name of `storage.filename`:
`originalname.replace(/[^a-zA-Z0-9]/g, "-").toLowerCase().substring(0, 50)`. -/
def sanitizedFileName (orig : String) : String :=
  String.mk
    (((orig.data.map (fun c => if isAsciiAlnum c then c else '-')).map
      asciiLowerChar).take 50)

/-- `storage.filename`: the stored name of a generic upload, built from the
millisecond timestamp `Date.now()`, a random UUID, the sanitized original
name, and the original extension. -/
def uploadFileName (now : Nat) (uniqueId : String) (orig : String) : String :=
  toString now ++ "-" ++ uniqueId ++ "-" ++ sanitizedFileName orig ++ extname orig

/-- Outcome of the multer intake stage for one file: either the file is
written under a destination directory with a generated name, or it is
rejected by the file filter before any write to final storage. -/
inductive MulterOutcome
  | stored (dir fileName : String)
  | rejected (errMsg : String)
deriving DecidableEq

/-- The multer single-file intake pipeline: the file filter runs first, and
only an accepted file is committed to a destination directory. -/
def multerSingle (mimetype orig : String) (now : Nat) (uniqueId : String) :
    MulterOutcome :=
  match fileFilter mimetype with
  | Except.error e => MulterOutcome.rejected e
  | Except.ok _ =>
      MulterOutcome.stored (storageDestination mimetype)
        (uploadFileName now uniqueId orig)

/-- Sanitizer written from the spec words of the filename claim:
"sanitization strips all non-alphanumeric characters", truncated to
50 characters. -/
def sanitizedFileNameSpec (orig : String) : String :=
  String.mk ((orig.data.filter isAsciiAlnum).take 50)

/-- Stored-filename formula written from the spec words of the filename
claim, using the stripping sanitizer. -/
def uploadFileNameSpec (now : Nat) (uniqueId : String) (orig : String) : String :=
  toString now ++ "-" ++ uniqueId ++ "-" ++ sanitizedFileNameSpec orig ++ extname orig

/-- Sanitizer of the amended filename claim: each non-alphanumeric character
is replaced by a hyphen, letters are lower-cased, and the result is truncated
to 50 characters. -/
def sanitizedFileNameAmended (orig : String) : String :=
  String.mk
    ((orig.data.map (fun c => if isAsciiAlnum c then asciiLowerChar c else '-')).take 50)

/-! ### Users service (src/routes/usersRoute/users.ts) -/

/-- A row of the `users` table. -/
structure UserRow where
  id : Nat
  name : String
  email : String
  password : String
  role : String
  created_at : Nat
  updated_at : Nat
deriving DecidableEq

/-- The column set `id, name, email, role, created_at, updated_at` returned
by registration (its RETURNING clause) and by the single-user query: every
column of a user row except the password hash. -/
structure UserPublic where
  id : Nat
  name : String
  email : String
  role : String
  created_at : Nat
  updated_at : Nat
deriving DecidableEq

/-- Projection of a user row onto the password-free column set. -/
def toPublicUser (u : UserRow) : UserPublic :=
  { id := u.id, name := u.name, email := u.email, role := u.role,
    created_at := u.created_at, updated_at := u.updated_at }

/-- The `user` object of a successful login response:
`{ id, name, email, role }`. -/
structure LoginUserView where
  id : Nat
  name : String
  email : String
  role : String
deriving DecidableEq

def loginUserView (u : UserRow) : LoginUserView :=
  { id := u.id, name := u.name, email := u.email, role := u.role }

/-- Response of `POST /api/users/login`. The token field carries the JWT
payload `{ id, email, role }` when one is issued. -/
structure LoginResp where
  status : Nat
  success : Bool
  message : String
  token : Option (Nat × String × String)
  user : Option LoginUserView
deriving DecidableEq

/-- The `POST /api/users/login` handler. The database is the list of user
rows; `verify` models `bcrypt.compare` on (plaintext, stored hash); the two
body fields are optional strings checked for JavaScript truthiness. -/
def login (db : List UserRow) (verify : String → String → Bool)
    (email password : Option String) : LoginResp :=
  if jsFalsy email || jsFalsy password then
    { status := 400, success := false,
      message := "Email and password are required", token := none, user := none }
  else
    match db.filter (fun u => u.email == asciiLower (email.getD "")) with
    | [] =>
        { status := 400, success := false, message := "Invalid Credentials",
          token := none, user := none }
    | u :: _ =>
        if verify (password.getD "") u.password then
          { status := 200, success := true, message := "Login Sucessful",
            token := some (u.id, u.email, u.role), user := some (loginUserView u) }
        else
          { status := 401, success := false, message := "Invalid Credentials",
            token := none, user := none }

/-- Database actions a users-route handler can perform, in order. -/
inductive DbAction
  | dbSelect
  | dbInsert
deriving DecidableEq

/-- Response of `POST /api/users/registration`, together with the trace of
database actions the handler performed. -/
structure RegResp where
  status : Nat
  success : Bool
  message : String
  data : Option UserPublic
  dbAfter : List UserRow
  trace : List DbAction
deriving DecidableEq

/-- The `POST /api/users/registration` handler. `hash` models
`bcrypt.hash`; `newId` and `now` stand for the id and timestamps the
database generates for the inserted row. -/
def registration (db : List UserRow) (hash : String → String)
    (newId : Nat) (now : Nat)
    (name email password role : Option String) : RegResp :=
  if jsFalsy name || jsFalsy email || jsFalsy password then
    { status := 500, success := false,
      message := "Name, email and password are required",
      data := none, dbAfter := db, trace := [] }
  else if (db.filter (fun u => u.email == asciiLower (email.getD ""))).length > 0 then
    { status := 409, success := false, message := "User already exists",
      data := none, dbAfter := db, trace := [DbAction.dbSelect] }
  else
    let row : UserRow :=
      { id := newId, name := name.getD "", email := asciiLower (email.getD ""),
        password := hash (password.getD ""),
        role := if jsFalsy role then "user" else role.getD "",
        created_at := now, updated_at := now }
    { status := 201, success := true, message := "User Registered Successfully",
      data := some (toPublicUser row), dbAfter := db ++ [row],
      trace := [DbAction.dbSelect, DbAction.dbInsert] }

/-- `GET /api/users`: `SELECT * FROM users` — the full rows, every column
included. -/
def listUsers (db : List UserRow) : List UserRow := db

/-- `GET /api/users/:id`: the explicit column list without the password,
`none` when no row matches. -/
def getUserById (db : List UserRow) (i : Nat) : Option UserPublic :=
  match db.filter (fun u => u.id == i) with
  | [] => none
  | u :: _ => some (toPublicUser u)

/-! ### Settings service (src/routes/settingsRoute/basic.ts) -/

/-- A row of the `basic_settings` table. -/
structure SettingsRow where
  id : Nat
  site_name : String
  tagline : Option String
  contact_email : Option String
  facebook_url : Option String
  x_url : Option String
  instagram_url : Option String
  meta_description : Option String
  meta_keywords : Option String
  meta_author : Option String
  google_analytics_id : Option String
  contact_phone : Option String
  contact_address : Option String
  copyright_text : Option String
  maintenance_mode : Bool
  logo_url : Option String
  favicon_url : Option String
  created_by : Option Nat
  updated_by : Option Nat
  created_at : Nat
  updated_at : Nat
deriving DecidableEq

/-- `SELECT ... FROM basic_settings ORDER BY id DESC LIMIT 1`: the row with
the greatest id, when the table is non-empty. -/
def latestSettings (db : List SettingsRow) : Option SettingsRow :=
  db.foldl
    (fun acc r =>
      match acc with
      | none => some r
      | some b => if b.id < r.id then some r else some b)
    none

/-- Observable steps of the logo / favicon replacement handlers, in the
order the handler performs them. -/
inductive SettingsEvent
  | dbSelectCurrent (oldUrl : Option (Option String))
  | dbUpdate (rowsReturned : Nat)
  | fsUnlink (path : String)
deriving DecidableEq

/-- Result of a logo / favicon replacement request: the event trace, the
database afterwards, and the HTTP response. -/
structure AssetResult where
  events : List SettingsEvent
  dbAfter : List SettingsRow
  status : Nat
  success : Bool
  message : String
deriving DecidableEq

/-- The shared tail of the two asset handlers, after the multer stage has
stored a new file: read the current URL from the latest settings row, run
the UPDATE targeting that row, and afterwards — only when the update
returned a row, a previous URL existed (truthy) and differs from the new
path — attempt deletion of the previous physical file, itself guarded by an
existence check.  `select` reads the relevant URL column of a row, `assign`
writes it, and `newPath` is the relative path of the newly stored file. -/
def replaceAsset (select : SettingsRow → Option String)
    (assign : SettingsRow → String → SettingsRow)
    (okMsg : String) (db : List SettingsRow) (newPath : String)
    (fsExists : String → Bool) (cwd : String) : AssetResult :=
  let current := latestSettings db
  let dbA :=
    match current with
    | none => db
    | some b => db.map (fun r => if r.id == b.id then assign r newPath else r)
  let returned :=
    match current with
    | none => 0
    | some b => (dbA.filter (fun r => r.id == b.id)).length
  let deletes :=
    match current with
    | none => []
    | some b =>
      if returned > 0 then
        match select b with
        | some old =>
          if !old.isEmpty && old != newPath then
            if fsExists (cwd ++ old) then [SettingsEvent.fsUnlink (cwd ++ old)]
            else []
          else []
        | none => []
      else []
  { events :=
      [SettingsEvent.dbSelectCurrent (current.map select),
       SettingsEvent.dbUpdate returned] ++ deletes,
    dbAfter := dbA, status := 200, success := true, message := okMsg }

/-- The `POST /api/basic-settings/logo` handler. `file` is the filename the
multer stage stored (none when no file was sent), `now` the update
timestamp, `fsExists` the filesystem oracle, `cwd` `process.cwd()`. -/
def logoHandler (db : List SettingsRow) (file : Option String)
    (now : Nat) (fsExists : String → Bool) (cwd : String) : AssetResult :=
  match file with
  | none =>
      { events := [], dbAfter := db, status := 400, success := false,
        message := "No logo file uploaded" }
  | some filename =>
      replaceAsset (fun r => r.logo_url)
        (fun r p => { r with logo_url := some p, updated_at := now })
        "Logo uploaded successfully" db
        ("/uploads/settings/logo/" ++ filename) fsExists cwd

/-- The `POST /api/basic-settings/favicon` handler. -/
def faviconHandler (db : List SettingsRow) (file : Option String)
    (now : Nat) (fsExists : String → Bool) (cwd : String) : AssetResult :=
  match file with
  | none =>
      { events := [], dbAfter := db, status := 400, success := false,
        message := "No favicon file uploaded" }
  | some filename =>
      replaceAsset (fun r => r.favicon_url)
        (fun r p => { r with favicon_url := some p, updated_at := now })
        "Favicon uploaded successfully" db
        ("/uploads/settings/favicon/" ++ filename) fsExists cwd

/-- Request body of `POST /api/basic-settings`. -/
structure CreateSettingsBody where
  site_name : Option String
  tagline : Option String
  contact_email : Option String
  facebook_url : Option String
  x_url : Option String
  instagram_url : Option String
  meta_description : Option String
  meta_keywords : Option String
  meta_author : Option String
  google_analytics_id : Option String
  contact_phone : Option String
  contact_address : Option String
  copyright_text : Option String
  maintenance_mode : Option Bool
deriving DecidableEq

/-- Result of `POST /api/basic-settings`. -/
structure CreateResult where
  dbAfter : List SettingsRow
  status : Nat
  success : Bool
  message : String
deriving DecidableEq

/-- The `POST /api/basic-settings` handler: requires a truthy site name,
rejects with 400 when any settings row already exists, otherwise inserts
the single row. -/
def createSettings (db : List SettingsRow) (body : CreateSettingsBody)
    (userId : Option Nat) (newId : Nat) (now : Nat) : CreateResult :=
  if jsFalsy body.site_name then
    { dbAfter := db, status := 400, success := false,
      message := "Site name is required" }
  else if (db.take 1).length > 0 then
    { dbAfter := db, status := 400, success := false,
      message := "Settings already exist. Use PUT to update." }
  else
    let row : SettingsRow :=
      { id := newId, site_name := body.site_name.getD ""
        tagline := jsOrNull body.tagline
        contact_email := jsOrNull body.contact_email
        facebook_url := jsOrNull body.facebook_url
        x_url := jsOrNull body.x_url
        instagram_url := jsOrNull body.instagram_url
        meta_description := jsOrNull body.meta_description
        meta_keywords := jsOrNull body.meta_keywords
        meta_author := jsOrNull body.meta_author
        google_analytics_id := jsOrNull body.google_analytics_id
        contact_phone := jsOrNull body.contact_phone
        contact_address := jsOrNull body.contact_address
        copyright_text := jsOrNull body.copyright_text
        maintenance_mode := (body.maintenance_mode.getD false)
        logo_url := none, favicon_url := none
        created_by := userId, updated_by := userId
        created_at := now, updated_at := now }
    { dbAfter := db ++ [row], status := 201, success := true,
      message := "Basic settings created successfully" }

/-! ### Upload record service (src/index.ts, uploads router) -/

/-- A row of the `uploads` table. -/
structure UploadRow where
  id : Nat
  filename : String
  original_name : String
  mime_type : String
  size : Nat
  size_formatted : String
  path : String
  url : String
  category : String
  uploaded_by : Option Nat
  uploaded_at : Nat
  field_name : Option String
deriving DecidableEq

/-- Observable steps of `DELETE /api/uploads/:id`, in order: the SELECT of
the file info, the DELETE of the row, the `fs.unlinkSync` attempt, and the
swallowed filesystem error when the attempt throws. -/
inductive DeleteEvent
  | dbSelect
  | dbDelete
  | fsUnlinkTry (path : String)
  | fsUnlinkFailed (path : String)
deriving DecidableEq

/-- Result of `DELETE /api/uploads/:id`. -/
structure DeleteResult where
  events : List DeleteEvent
  dbAfter : List UploadRow
  status : Nat
  success : Bool
  message : String
deriving DecidableEq

/-- The `DELETE /api/uploads/:id` handler: fetch the row, 404 when absent;
otherwise delete the database row, then attempt to delete the physical file
(guarded by `fs.existsSync`, failures caught and only logged), and respond
with success regardless of the filesystem outcome.  `fsExists` and
`unlinkThrows` are the filesystem oracles. -/
def deleteUpload (db : List UploadRow) (i : Nat)
    (fsExists : String → Bool) (unlinkThrows : String → Bool) : DeleteResult :=
  match db.filter (fun r => r.id == i) with
  | [] =>
      { events := [DeleteEvent.dbSelect], dbAfter := db, status := 404,
        success := false, message := "File not found" }
  | r :: _ =>
      let fsEvents :=
        if fsExists r.path then
          if unlinkThrows r.path then
            [DeleteEvent.fsUnlinkTry r.path, DeleteEvent.fsUnlinkFailed r.path]
          else [DeleteEvent.fsUnlinkTry r.path]
        else []
      { events := [DeleteEvent.dbSelect, DeleteEvent.dbDelete] ++ fsEvents,
        dbAfter := db.filter (fun x => !(x.id == i)), status := 200,
        success := true, message := "File deleted successfully" }

/-- `ORDER BY uploaded_at DESC`: newer (or equally old) rows first. -/
def newerFirst (a b : UploadRow) : Prop := b.uploaded_at ≤ a.uploaded_at

instance : DecidableRel newerFirst := fun a b => Nat.decLe b.uploaded_at a.uploaded_at

instance : IsTotal UploadRow newerFirst :=
  ⟨fun a b => le_total b.uploaded_at a.uploaded_at⟩

instance : IsTrans UploadRow newerFirst :=
  ⟨fun _ _ _ hab hbc => le_trans hbc hab⟩

/-- Response of `GET /api/uploads`. -/
structure ListResult where
  data : List UploadRow
  page : Nat
  limit : Nat
  total : Nat
  totalPages : Nat
deriving DecidableEq

/-- `Math.ceil(total / limit)` on natural inputs with positive divisor. -/
def jsCeilDiv (total limit : Nat) : Nat := (total + limit - 1) / limit

/-- The `WHERE category = $1` clause, added only when the query value is
truthy (present and non-empty). -/
def categoryFilter (db : List UploadRow) : Option String → List UploadRow
  | none => db
  | some c => if c.isEmpty then db else db.filter (fun r => r.category == c)

/-- The `GET /api/uploads` handler: optional category filter (added only
when the query value is truthy), `ORDER BY uploaded_at DESC`, `LIMIT limit
OFFSET (page-1)*limit`, plus the separate COUNT query and the derived
pagination block. -/
def listUploads (db : List UploadRow) (category : Option String)
    (page limit : Nat) : ListResult :=
  let filtered := categoryFilter db category
  let sorted := List.insertionSort newerFirst filtered
  let data := (sorted.drop ((page - 1) * limit)).take limit
  { data := data, page := page, limit := limit, total := filtered.length,
    totalPages := jsCeilDiv filtered.length limit }

/-! ### Concrete sample data used by counterexamples and witnesses -/

/-- A stored user whose hash only the password "secret" verifies against. -/
def cexUser : UserRow :=
  { id := 1, name := "Ann", email := "a@x.com", password := "hashA",
    role := "user", created_at := 0, updated_at := 0 }

/-- A concrete `bcrypt.compare` oracle for `cexUser`. -/
def cexVerify : String → String → Bool :=
  fun plain stored => plain == "secret" && stored == "hashA"

/-- A settings row that already references a logo and a favicon. -/
def sampleSettingsRow : SettingsRow :=
  { id := 1, site_name := "News", tagline := none, contact_email := none,
    facebook_url := none, x_url := none, instagram_url := none,
    meta_description := none, meta_keywords := none, meta_author := none,
    google_analytics_id := none, contact_phone := none, contact_address := none,
    copyright_text := none, maintenance_mode := false,
    logo_url := some "/uploads/settings/logo/old.png",
    favicon_url := some "/uploads/settings/favicon/oldf.ico",
    created_by := none, updated_by := none, created_at := 0, updated_at := 0 }

/-- A minimal settings-creation body carrying only the site name. -/
def sampleBody : CreateSettingsBody :=
  { site_name := some "News", tagline := none, contact_email := none,
    facebook_url := none, x_url := none, instagram_url := none,
    meta_description := none, meta_keywords := none, meta_author := none,
    google_analytics_id := none, contact_phone := none, contact_address := none,
    copyright_text := none, maintenance_mode := none }

/-- One stored upload record. -/
def sampleUpload : UploadRow :=
  { id := 1, filename := "f.png", original_name := "f.png",
    mime_type := "image/png", size := 10, size_formatted := "10 Bytes",
    path := "./uploads/images/f.png", url := "http://h/uploads/images/f.png",
    category := "image", uploaded_by := none, uploaded_at := 3,
    field_name := none }

/-- A small uploads table with two images and one video. -/
def sampleUploadDb : List UploadRow :=
  [sampleUpload,
   { sampleUpload with id := 2, uploaded_at := 5 },
   { sampleUpload with id := 3, category := "video", uploaded_at := 9 }]

/-! ### Theorems -/

/-- C2: every MIME type of the fixed allow-list is classified by
`getFileCategory` into exactly the category of the table entry it appears
under (one of image / video / document / other), and a MIME type outside the
allow-list makes the multer intake reject the file with the
unsupported-type error instead of storing it. -/
theorem getFileCategory_table_and_reject :
    (∀ m ∈ allowedFileTypes.images, getFileCategory m = "image") ∧
    (∀ m ∈ allowedFileTypes.videos, getFileCategory m = "video") ∧
    (∀ m ∈ allowedFileTypes.documents, getFileCategory m = "document") ∧
    (∀ m ∈ allowedFileTypes.others, getFileCategory m = "other") ∧
    (∀ m ∈ ALLOWED_MIME_TYPES,
      getFileCategory m = "image" ∨ getFileCategory m = "video" ∨
      getFileCategory m = "document" ∨ getFileCategory m = "other") ∧
    (∀ (m orig : String) (now : Nat) (uniqueId : String),
      m ∉ ALLOWED_MIME_TYPES →
      multerSingle m orig now uniqueId =
        MulterOutcome.rejected ("File type not allowed: " ++ m)) := by
  refine ⟨by decide, by decide, by decide, by decide, by decide, ?_⟩
  intro m orig now uniqueId hm
  simp [multerSingle, fileFilter, hm]

/-- C2 witness: a listed image type is classified as an image, and an
unlisted type is rejected by the intake with the unsupported-type error. -/
theorem getFileCategory_table_and_reject_witness :
    ("image/png" ∈ allowedFileTypes.images ∧
      getFileCategory "image/png" = "image") ∧
    ("application/json" ∉ ALLOWED_MIME_TYPES ∧
      multerSingle "application/json" "a.json" 5 "u" =
        MulterOutcome.rejected ("File type not allowed: " ++ "application/json")) :=
  ⟨⟨by decide, getFileCategory_table_and_reject.1 "image/png" (by decide)⟩,
   ⟨by decide,
    getFileCategory_table_and_reject.2.2.2.2.2 "application/json" "a.json" 5 "u"
      (by decide)⟩⟩

/-- C7 counterexample: the sanitizer does not strip non-alphanumeric
characters — it replaces each of them with a hyphen — so on the original
name "a b.txt" the stored filename differs from the spec formula built with
a stripping sanitizer. -/
theorem uploadFileName_strip_cex :
    uploadFileName 1 "u" "a b.txt" = "1-u-a-b-txt.txt" ∧
    uploadFileNameSpec 1 "u" "a b.txt" = "1-u-abtxt.txt" ∧
    uploadFileName 1 "u" "a b.txt" ≠ uploadFileNameSpec 1 "u" "a b.txt" := by
  decide

/-- The two sanitizer pipelines agree: replace-then-lowercase equals the
single pass that lower-cases alphanumerics and hyphenates the rest. -/
theorem sanitizedFileName_eq_amended (orig : String) :
    sanitizedFileName orig = sanitizedFileNameAmended orig := by
  unfold sanitizedFileName sanitizedFileNameAmended
  rw [List.map_map]
  have h : (asciiLowerChar ∘ fun c => if isAsciiAlnum c then c else '-') =
      (fun c => if isAsciiAlnum c then asciiLowerChar c else '-') := by
    funext c
    by_cases hc : isAsciiAlnum c = true
    · simp [Function.comp, hc]
    · simp only [Function.comp, Bool.not_eq_true] at hc
      simp [Function.comp, hc]
      decide
  rw [h]

/-- C7 amended: the stored filename of a generic upload is
`{timestamp}-{uuid}-{sanitized original truncated to 50}{extension}` where
the sanitizer replaces every non-alphanumeric character with a hyphen and
lower-cases the rest (rather than stripping). -/
theorem uploadFileName_amended (now : Nat) (uniqueId orig : String) :
    uploadFileName now uniqueId orig =
      toString now ++ "-" ++ uniqueId ++ "-" ++
        sanitizedFileNameAmended orig ++ extname orig := by
  unfold uploadFileName
  rw [sanitizedFileName_eq_amended]

/-- C1 counterexample: against a store holding only `cexUser`, a login with
an unknown email and a login with the right email but a wrong password both
answer "Invalid Credentials", yet with different HTTP statuses — 400 for the
unknown email and 401 for the wrong password — so the two failure responses
are not identical. -/
theorem login_failure_status_cex :
    (login [cexUser] cexVerify (some "b@x.com") (some "secret")).message =
      "Invalid Credentials" ∧
    (login [cexUser] cexVerify (some "a@x.com") (some "wrong")).message =
      "Invalid Credentials" ∧
    (login [cexUser] cexVerify (some "b@x.com") (some "secret")).status = 400 ∧
    (login [cexUser] cexVerify (some "a@x.com") (some "wrong")).status = 401 ∧
    (login [cexUser] cexVerify (some "b@x.com") (some "secret")).status ≠
      (login [cexUser] cexVerify (some "a@x.com") (some "wrong")).status := by
  decide

/-- C1 amended: for every login request with both fields present, the
nonexistent-email failure and the wrong-password failure carry the same
error message "Invalid Credentials", but different status codes: 400 when no
user matches the email, 401 when the password does not verify. -/
theorem login_failure_responses (db : List UserRow)
    (verify : String → String → Bool) (email password : Option String)
    (he : jsFalsy email = false) (hp : jsFalsy password = false) :
    (db.filter (fun u => u.email == asciiLower (email.getD "")) = [] →
      login db verify email password =
        { status := 400, success := false, message := "Invalid Credentials",
          token := none, user := none }) ∧
    (∀ (u : UserRow) (rest : List UserRow),
      db.filter (fun v => v.email == asciiLower (email.getD "")) = u :: rest →
      verify (password.getD "") u.password = false →
      login db verify email password =
        { status := 401, success := false, message := "Invalid Credentials",
          token := none, user := none }) := by
  constructor
  · intro hnil
    simp [login, he, hp, hnil]
  · intro u rest hcons hv
    simp [login, he, hp, hcons, hv]

/-- C1 witness: the amended statement instantiated at the concrete store,
giving the 400 response for the unknown email and the 401 response for the
wrong password. -/
theorem login_failure_responses_witness :
    login [cexUser] cexVerify (some "b@x.com") (some "secret") =
      { status := 400, success := false, message := "Invalid Credentials",
        token := none, user := none } ∧
    login [cexUser] cexVerify (some "a@x.com") (some "wrong") =
      { status := 401, success := false, message := "Invalid Credentials",
        token := none, user := none } :=
  ⟨(login_failure_responses [cexUser] cexVerify (some "b@x.com") (some "secret")
      (by decide) (by decide)).1 (by decide),
   (login_failure_responses [cexUser] cexVerify (some "a@x.com") (some "wrong")
      (by decide) (by decide)).2 cexUser [] (by decide) (by decide)⟩

/-- C8: the registration handler rejects a request missing the required
name field before any database interaction (empty action trace), but with
HTTP status 500, not the 400 the spec prescribes for validation errors. -/
theorem registration_missing_field_gives_500 :
    (registration [] (fun p => p) 1 0 none (some "a@x.com") (some "secret")
        none).status = 500 ∧
    (registration [] (fun p => p) 1 0 none (some "a@x.com") (some "secret")
        none).success = false ∧
    (registration [] (fun p => p) 1 0 none (some "a@x.com") (some "secret")
        none).message = "Name, email and password are required" ∧
    (registration [] (fun p => p) 1 0 none (some "a@x.com") (some "secret")
        none).trace = [] := by
  decide

/-- The single-user read returns the head of the id filter projected onto
the password-free column set. -/
theorem getUserById_eq_head (db : List UserRow) (i : Nat) :
    getUserById db i =
      ((db.filter (fun u => u.id == i)).head?).map toPublicUser := by
  unfold getUserById
  cases h : db.filter (fun u => u.id == i) <;> simp

/-- C10: the list-users operation returns the full stored rows, password
hash included, while the projections used by getById, registration and
login are insensitive to the stored password: replacing every password hash
changes none of those responses. -/
theorem listUsers_exposes_password_hash :
    (∀ db : List UserRow, listUsers db = db) ∧
    (∀ (u : UserRow) (p : String), toPublicUser { u with password := p } = toPublicUser u) ∧
    (∀ (u : UserRow) (p : String), loginUserView { u with password := p } = loginUserView u) ∧
    (∀ (db : List UserRow) (i : Nat) (p : String),
      getUserById (db.map (fun u => { u with password := p })) i = getUserById db i) := by
  refine ⟨fun db => rfl, fun u p => rfl, fun u p => rfl, ?_⟩
  intro db i p
  rw [getUserById_eq_head, getUserById_eq_head]
  induction db with
  | nil => rfl
  | cons u rest ih =>
      by_cases h : (u.id == i) = true
      · simp [List.filter_cons, h, toPublicUser]
      · simp only [List.map_cons, List.filter_cons] at *
        simpa [h] using ih

/-- Whenever an asset-replacement run unlinks a file, the run's whole trace
is select–update–unlink: the update returned at least one row, the
previously stored URL existed, was truthy and differed from the new path,
and the unlinked path is the previous URL joined to the working
directory. -/
theorem replaceAsset_unlink_only_after_update
    (select : SettingsRow → Option String)
    (assign : SettingsRow → String → SettingsRow)
    (okMsg : String) (db : List SettingsRow) (newPath : String)
    (fsExists : String → Bool) (cwd : String) (p : String)
    (hmem : SettingsEvent.fsUnlink p ∈
      (replaceAsset select assign okMsg db newPath fsExists cwd).events) :
    ∃ b old n,
      latestSettings db = some b ∧ select b = some old ∧
      old.isEmpty = false ∧ old ≠ newPath ∧ p = cwd ++ old ∧ 0 < n ∧
      (replaceAsset select assign okMsg db newPath fsExists cwd).events =
        [SettingsEvent.dbSelectCurrent (some (some old)),
         SettingsEvent.dbUpdate n, SettingsEvent.fsUnlink p] := by
  unfold replaceAsset at hmem ⊢
  cases hcur : latestSettings db with
  | none => simp [hcur] at hmem
  | some b =>
      simp only [hcur, Option.map_some'] at hmem ⊢
      simp only [List.cons_append, List.nil_append, List.mem_cons,
        reduceCtorEq, false_or] at hmem
      split at hmem
      · split at hmem
        · case _ old heq =>
            split at hmem
            · split at hmem
              · case _ hL _ hguard hfs =>
                  simp only [List.mem_singleton, SettingsEvent.fsUnlink.injEq] at hmem
                  subst hmem
                  rcases (by simpa using hguard :
                      (old.isEmpty = false) ∧ old ≠ newPath) with ⟨hemp, hne⟩
                  exact ⟨b, old, _, rfl, heq, hemp, hne, rfl, hL,
                    by rw [heq, if_pos hL, if_pos hguard, if_pos hfs]; rfl⟩
              · simp at hmem
            · simp at hmem
        · simp at hmem
      · simp at hmem

/-- C3: for both the logo and the favicon replacement, a physical-file
deletion happens only after the database update returned a row — the whole
trace is then select, update with a positive row count, unlink — and only
when a previous URL existed (truthy) and differs from the newly stored
path; in particular the previous file is never deleted before the update
succeeds. -/
theorem asset_old_file_deleted_only_after_update
    (db : List SettingsRow) (file : Option String) (now : Nat)
    (fsExists : String → Bool) (cwd : String) (p : String) :
    (SettingsEvent.fsUnlink p ∈ (logoHandler db file now fsExists cwd).events →
      ∃ f b old n, file = some f ∧
        latestSettings db = some b ∧ b.logo_url = some old ∧
        old.isEmpty = false ∧ old ≠ "/uploads/settings/logo/" ++ f ∧
        p = cwd ++ old ∧ 0 < n ∧
        (logoHandler db file now fsExists cwd).events =
          [SettingsEvent.dbSelectCurrent (some (some old)),
           SettingsEvent.dbUpdate n, SettingsEvent.fsUnlink p]) ∧
    (SettingsEvent.fsUnlink p ∈ (faviconHandler db file now fsExists cwd).events →
      ∃ f b old n, file = some f ∧
        latestSettings db = some b ∧ b.favicon_url = some old ∧
        old.isEmpty = false ∧ old ≠ "/uploads/settings/favicon/" ++ f ∧
        p = cwd ++ old ∧ 0 < n ∧
        (faviconHandler db file now fsExists cwd).events =
          [SettingsEvent.dbSelectCurrent (some (some old)),
           SettingsEvent.dbUpdate n, SettingsEvent.fsUnlink p]) := by
  constructor
  · intro hmem
    cases file with
    | none => simp [logoHandler] at hmem
    | some f =>
        obtain ⟨b, old, n, hcur, heq, hemp, hne, hp, hn, hev⟩ :=
          replaceAsset_unlink_only_after_update
            (fun r => r.logo_url)
            (fun r q => { r with logo_url := some q, updated_at := now })
            "Logo uploaded successfully" db
            ("/uploads/settings/logo/" ++ f) fsExists cwd p hmem
        exact ⟨f, b, old, n, rfl, hcur, heq, hemp, hne, hp, hn, hev⟩
  · intro hmem
    cases file with
    | none => simp [faviconHandler] at hmem
    | some f =>
        obtain ⟨b, old, n, hcur, heq, hemp, hne, hp, hn, hev⟩ :=
          replaceAsset_unlink_only_after_update
            (fun r => r.favicon_url)
            (fun r q => { r with favicon_url := some q, updated_at := now })
            "Favicon uploaded successfully" db
            ("/uploads/settings/favicon/" ++ f) fsExists cwd p hmem
        exact ⟨f, b, old, n, rfl, hcur, heq, hemp, hne, hp, hn, hev⟩

/-- C3 witness: replacing the logo of a store whose single settings row
already references an old logo does unlink the old file, and the
characterization applies to that run. -/
theorem asset_old_file_deleted_only_after_update_witness :
    SettingsEvent.fsUnlink "/app/uploads/settings/logo/old.png" ∈
      (logoHandler [sampleSettingsRow] (some "new.png") 5 (fun _ => true)
        "/app").events ∧
    (∃ f b old n, (some "new.png" : Option String) = some f ∧
      latestSettings [sampleSettingsRow] = some b ∧ b.logo_url = some old ∧
      old.isEmpty = false ∧ old ≠ "/uploads/settings/logo/" ++ f ∧
      "/app/uploads/settings/logo/old.png" = "/app" ++ old ∧ 0 < n ∧
      (logoHandler [sampleSettingsRow] (some "new.png") 5 (fun _ => true)
          "/app").events =
        [SettingsEvent.dbSelectCurrent (some (some old)),
         SettingsEvent.dbUpdate n,
         SettingsEvent.fsUnlink "/app/uploads/settings/logo/old.png"]) :=
  ⟨by decide,
   (asset_old_file_deleted_only_after_update [sampleSettingsRow]
      (some "new.png") 5 (fun _ => true) "/app"
      "/app/uploads/settings/logo/old.png").1 (by decide)⟩

/-- C9: a logo or favicon upload against an empty settings table still
answers 200 with the success message although the update touched zero rows
(`dbUpdate 0` in the trace), no deletion happens, and the database stays
empty — so no settings row references the newly written file. -/
theorem asset_upload_without_settings_row (f : String) (now : Nat)
    (fsExists : String → Bool) (cwd : String) :
    logoHandler [] (some f) now fsExists cwd =
      { events := [SettingsEvent.dbSelectCurrent none, SettingsEvent.dbUpdate 0],
        dbAfter := [], status := 200, success := true,
        message := "Logo uploaded successfully" } ∧
    faviconHandler [] (some f) now fsExists cwd =
      { events := [SettingsEvent.dbSelectCurrent none, SettingsEvent.dbUpdate 0],
        dbAfter := [], status := 200, success := true,
        message := "Favicon uploaded successfully" } :=
  ⟨rfl, rfl⟩

/-- C4: once any settings row exists, a creation request fails with 400 and
leaves the table unchanged, and consequently a table holding at most one
row still holds at most one row after any creation request. -/
theorem createSettings_rejects_second_row (db : List SettingsRow)
    (body : CreateSettingsBody) (uid : Option Nat) (newId now : Nat) :
    (db ≠ [] →
      (createSettings db body uid newId now).status = 400 ∧
      (createSettings db body uid newId now).dbAfter = db) ∧
    (db.length ≤ 1 → (createSettings db body uid newId now).dbAfter.length ≤ 1) := by
  constructor
  · intro hne
    unfold createSettings
    by_cases hs : jsFalsy body.site_name = true
    · simp [hs]
    · cases db with
      | nil => exact absurd rfl hne
      | cons a l => simp [hs]
  · intro hlen
    unfold createSettings
    by_cases hs : jsFalsy body.site_name = true
    · simpa [hs] using hlen
    · cases db with
      | nil => simp [hs]
      | cons a l => simpa [hs] using hlen

/-- C4 witness: with the one-row table, a second creation request answers
400 and the table still holds exactly its original row. -/
theorem createSettings_rejects_second_row_witness :
    (createSettings [sampleSettingsRow] sampleBody none 2 7).status = 400 ∧
    (createSettings [sampleSettingsRow] sampleBody none 2 7).dbAfter =
      [sampleSettingsRow] :=
  (createSettings_rejects_second_row [sampleSettingsRow] sampleBody none 2 7).1
    (by decide)

/-- C5: deleting an existing upload record removes the database row first
(the trace starts with select, delete, and only filesystem events follow),
answers 200 with the success message, and neither a missing physical file
nor a filesystem error changes the database result or the status. -/
theorem deleteUpload_row_first_then_file (db : List UploadRow) (i : Nat)
    (fsExists unlinkThrows : String → Bool) (r : UploadRow) (rest : List UploadRow)
    (h : db.filter (fun x => x.id == i) = r :: rest) :
    (deleteUpload db i fsExists unlinkThrows).status = 200 ∧
    (deleteUpload db i fsExists unlinkThrows).success = true ∧
    (deleteUpload db i fsExists unlinkThrows).message = "File deleted successfully" ∧
    (deleteUpload db i fsExists unlinkThrows).dbAfter =
      db.filter (fun x => !(x.id == i)) ∧
    (∃ fsEvents,
      (deleteUpload db i fsExists unlinkThrows).events =
        DeleteEvent.dbSelect :: DeleteEvent.dbDelete :: fsEvents ∧
      ∀ e ∈ fsEvents, e = DeleteEvent.fsUnlinkTry r.path ∨
        e = DeleteEvent.fsUnlinkFailed r.path) ∧
    (∀ fsE2 ut2 : String → Bool,
      (deleteUpload db i fsE2 ut2).status = 200 ∧
      (deleteUpload db i fsE2 ut2).dbAfter =
        (deleteUpload db i fsExists unlinkThrows).dbAfter) := by
  unfold deleteUpload
  rw [h]
  refine ⟨rfl, rfl, rfl, rfl, ⟨_, rfl, ?_⟩, fun fsE2 ut2 => ⟨rfl, rfl⟩⟩
  intro e he
  split at he
  · split at he
    · rcases List.mem_cons.mp he with he2 | he3
      · exact Or.inl he2
      · exact Or.inr (List.mem_singleton.mp he3)
    · exact Or.inl (List.mem_singleton.mp he)
  · exact absurd he (List.not_mem_nil e)

/-- C5 witness: deleting the single stored record whose physical file is
already missing still answers 200 and removes the row. -/
theorem deleteUpload_row_first_then_file_witness :
    (deleteUpload [sampleUpload] 1 (fun _ => false) (fun _ => false)).status = 200 ∧
    (deleteUpload [sampleUpload] 1 (fun _ => false) (fun _ => false)).dbAfter =
      List.filter (fun x => !(x.id == 1)) [sampleUpload] :=
  ⟨(deleteUpload_row_first_then_file [sampleUpload] 1 (fun _ => false)
      (fun _ => false) sampleUpload [] (by decide)).1,
   (deleteUpload_row_first_then_file [sampleUpload] 1 (fun _ => false)
      (fun _ => false) sampleUpload [] (by decide)).2.2.2.1⟩

/-- The ceiling division used for the page count is characterized as the
least number of pages covering the total. -/
theorem jsCeilDiv_le_iff (t l n : Nat) (hl : 0 < l) :
    jsCeilDiv t l ≤ n ↔ t ≤ n * l := by
  unfold jsCeilDiv
  rw [Nat.mul_comm n l, Nat.div_le_iff_le_mul_add_pred hl]
  omega

/-- C6: every listing query — with or without a category — returns the
window with offset (page-1)*limit and length at most limit over the
matching rows sorted newest-first by upload timestamp, reports the matching
row count as total, restricts the result to the given category whenever a
truthy one is provided, and reports as totalPages the ceiling of
total / limit (the least page count covering the total). -/
theorem listUploads_pagination (db : List UploadRow) (category : Option String)
    (page limit : Nat) (_hp : 1 ≤ page) (hl : 1 ≤ limit) :
    (listUploads db category page limit).data =
      ((List.insertionSort newerFirst (categoryFilter db category)).drop
        ((page - 1) * limit)).take limit ∧
    List.Pairwise (fun a b => b.uploaded_at ≤ a.uploaded_at)
      (listUploads db category page limit).data ∧
    (listUploads db category page limit).total =
      (categoryFilter db category).length ∧
    (∀ c, category = some c → c.isEmpty = false →
      ∀ x ∈ (listUploads db category page limit).data, x.category = c) ∧
    (∀ n : Nat, (listUploads db category page limit).totalPages ≤ n ↔
      (listUploads db category page limit).total ≤ n * limit) := by
  refine ⟨rfl, ?_, rfl, ?_, ?_⟩
  · exact List.Pairwise.sublist
      ((List.take_sublist _ _).trans (List.drop_sublist _ _))
      (List.sorted_insertionSort newerFirst _)
  · intro c hcat hce x hx
    subst hcat
    have hcf : categoryFilter db (some c) = db.filter (fun r => r.category == c) := by
      show (if c.isEmpty = true then db else db.filter (fun r => r.category == c)) =
        db.filter (fun r => r.category == c)
      rw [hce]
      rfl
    have hx2 : x ∈ categoryFilter db (some c) :=
      (List.mem_insertionSort newerFirst).mp
        (List.mem_of_mem_drop (List.mem_of_mem_take hx))
    rw [hcf] at hx2
    exact eq_of_beq (List.mem_filter.mp hx2).2
  · intro n
    exact jsCeilDiv_le_iff _ _ n hl

/-- C6 witness: on the three-row table, listing the image category with
page 1 and limit 1 yields only image rows, the page-count characterization
holds at two pages, and the category-absent listing with limit 2 is ordered
newest-first. -/
theorem listUploads_pagination_witness :
    (∀ x ∈ (listUploads sampleUploadDb (some "image") 1 1).data,
      x.category = "image") ∧
    ((listUploads sampleUploadDb (some "image") 1 1).totalPages ≤ 2 ↔
      (listUploads sampleUploadDb (some "image") 1 1).total ≤ 2 * 1) ∧
    List.Pairwise (fun a b => b.uploaded_at ≤ a.uploaded_at)
      (listUploads sampleUploadDb none 1 2).data :=
  ⟨(listUploads_pagination sampleUploadDb (some "image") 1 1 (by decide)
      (by decide)).2.2.2.1 "image" rfl (by decide),
   (listUploads_pagination sampleUploadDb (some "image") 1 1 (by decide)
      (by decide)).2.2.2.2 2,
   (listUploads_pagination sampleUploadDb none 1 2 (by decide)
      (by decide)).2.1⟩

end NewsPortal
